import Mathlib

/-!
Shallow embedding of `src/caffe/layers/data_layer.cpp` (the prefetching
data layer): backend cursor advancement, the per-item decode/augment
transform of `InternalThreadEntry`, the HDF5 multi-file batch
accumulation of `LoadNextHdfBatch`, and the configuration checks of
`SetUp` / `CreatePrefetchThread` / `PrefetchRand`.

Numeric values written to the prefetch buffer (`Dtype`) are modelled as
rationals; byte pixels are naturals reduced mod 256 at the
`static_cast<uint8_t>` decode.  A `LOG(FATAL)` / failed `CHECK` is
modelled as `none` / a dedicated `fatal` constructor.
-/

namespace DataLayer

/-- Execution phase, `Caffe::TRAIN` vs `Caffe::TEST` (eval). -/
inductive Phase
  | train
  | test
deriving DecidableEq, Repr

/-- The three database backends of `DataParameter`. -/
inductive Backend
  | leveldb
  | lmdb
  | hdf5
deriving DecidableEq, Repr

/-- State of `prefetch_rng_` as observed through `PrefetchRand()`: the
stream `seq` of successive generator outputs together with the number
`pos` of draws already made. -/
structure RngState where
  seq : Nat → Nat
  pos : Nat

/-- `PrefetchRand()` (data_layer.cpp lines 465-471): `CHECK(prefetch_rng_)`
fails (fatal, `none`) when no RNG exists; otherwise it returns the next
generator output. -/
def PrefetchRand (rng : Option RngState) : Option (Nat × RngState) :=
  match rng with
  | none => none
  | some r => some (r.seq r.pos, { seq := r.seq, pos := r.pos + 1 })

/-- One decoded record (`Datum`): optional byte-encoded pixel data
(`data`, with `dataSize = data.size()`; `dataSize = 0` means the byte
encoding is absent), the float-vector fallback `float_data`, and the
label. -/
structure Datum where
  dataSize : Nat
  data : Nat → Nat
  float_data : Nat → Rat
  label : Rat

/-- Configuration visible to `InternalThreadEntry`: `scale`, `crop_size`
and `mirror` from `data_param()`, the datum shape fixed at `SetUp`, and
the phase fixed at `CreatePrefetchThread`. -/
structure TransformParams where
  scale : Rat
  crop_size : Nat
  mirror : Bool
  channels : Nat
  height : Nat
  width : Nat
  phase : Phase

/-- `datum_size_ = datum_channels_ * datum_height_ * datum_width_`. -/
def datumSize (p : TransformParams) : Nat :=
  p.channels * p.height * p.width

/-- Byte-pixel decode `static_cast<Dtype>(static_cast<uint8_t>(data[i]))`:
the byte is reduced mod 256 and cast into the numeric type. -/
def datumElement (d : Datum) (i : Nat) : Rat :=
  ((d.data i % 256 : Nat) : Rat)

/-- Point update of the flat prefetch buffer `top_data`. -/
def writeBuf (b : Nat → Rat) (i : Nat) (v : Rat) : Nat → Rat :=
  fun j => if j = i then v else b j

/-- Flat output index of the crop loops:
`((item_id * channels + c) * crop_size + h) * crop_size + w`. -/
def topIndexCrop (channels crop_size item_id c h w : Nat) : Nat :=
  ((item_id * channels + c) * crop_size + h) * crop_size + w

/-- Flat source index of the crop loops:
`(c * height + h + h_off) * width + w + w_off`. -/
def dataIndex (height width h_off w_off c h w : Nat) : Nat :=
  (c * height + h + h_off) * width + w + w_off

/-- Iteration order of the triple loop `for c, for h, for w` over
channels × crop_size × crop_size. -/
def cropIters (channels crop_size : Nat) : List (Nat × Nat × Nat) :=
  (List.range channels).flatMap fun c =>
    (List.range crop_size).flatMap fun h =>
      (List.range crop_size).map fun w => (c, h, w)

/-- The "Normal copy" crop loop (data_layer.cpp lines 87-99): for each
`(c, h, w)` it writes `(datum_element - mean[data_index]) * scale` at
`top_index = topIndexCrop … c h w`, `data_index = dataIndex … c h w`. -/
def cropLoopNormal (p : TransformParams) (mean : Nat → Rat) (d : Datum)
    (h_off w_off item_id : Nat) (top : Nat → Rat) : Nat → Rat :=
  (cropIters p.channels p.crop_size).foldl
    (fun b x =>
      writeBuf b (topIndexCrop p.channels p.crop_size item_id x.1 x.2.1 x.2.2)
        ((datumElement d (dataIndex p.height p.width h_off w_off x.1 x.2.1 x.2.2)
          - mean (dataIndex p.height p.width h_off w_off x.1 x.2.1 x.2.2)) * p.scale))
    top

/-- The "Copy mirrored version" crop loop (data_layer.cpp lines 73-85):
identical to the normal loop except the output column is
`crop_size - 1 - w`. -/
def cropLoopMirror (p : TransformParams) (mean : Nat → Rat) (d : Datum)
    (h_off w_off item_id : Nat) (top : Nat → Rat) : Nat → Rat :=
  (cropIters p.channels p.crop_size).foldl
    (fun b x =>
      writeBuf b (topIndexCrop p.channels p.crop_size item_id x.1 x.2.1 (p.crop_size - 1 - x.2.2))
        ((datumElement d (dataIndex p.height p.width h_off w_off x.1 x.2.1 x.2.2)
          - mean (dataIndex p.height p.width h_off w_off x.1 x.2.1 x.2.2)) * p.scale))
    top

/-- The uncropped byte-data loop (data_layer.cpp lines 103-108): writes
`(datum_element - mean[j]) * scale` at `item_id * size + j`. -/
def byteLoop (p : TransformParams) (mean : Nat → Rat) (d : Datum)
    (item_id : Nat) (top : Nat → Rat) : Nat → Rat :=
  (List.range (datumSize p)).foldl
    (fun b j =>
      writeBuf b (item_id * datumSize p + j) ((datumElement d j - mean j) * p.scale))
    top

/-- The uncropped float-data loop (data_layer.cpp lines 109-114): writes
`(float_data(j) - mean[j]) * scale` at `item_id * size + j`. -/
def floatLoop (p : TransformParams) (mean : Nat → Rat) (d : Datum)
    (item_id : Nat) (top : Nat → Rat) : Nat → Rat :=
  (List.range (datumSize p)).foldl
    (fun b j =>
      writeBuf b (item_id * datumSize p + j) ((d.float_data j - mean j) * p.scale))
    top

/-- Crop-offset selection (data_layer.cpp lines 63-71): two RNG draws
taken mod `height - crop_size` / `width - crop_size` when training,
the deterministic centre `(height - crop_size) / 2`,
`(width - crop_size) / 2` otherwise. -/
def cropOffsets (phase : Phase) (height width crop_size : Nat)
    (rng : Option RngState) : Option ((Nat × Nat) × Option RngState) :=
  match phase with
  | Phase.train =>
    match PrefetchRand rng with
    | none => none
    | some (r1, s1) =>
      match PrefetchRand (some s1) with
      | none => none
      | some (r2, s2) =>
        some ((r1 % (height - crop_size), r2 % (width - crop_size)), some s2)
  | Phase.test =>
    some (((height - crop_size) / 2, (width - crop_size) / 2), rng)

/-- Per-item body of `InternalThreadEntry` (data_layer.cpp lines 60-115):
cropping requires byte data (`CHECK(data.size())`), offsets are chosen by
`cropOffsets`, then `if (mirror && PrefetchRand() % 2)` selects the
mirrored or normal crop loop; without cropping the byte loop is
preferred and the float loop is the fallback.  `none` models a failed
CHECK / LOG(FATAL). -/
def processItem (p : TransformParams) (mean : Nat → Rat) (d : Datum)
    (rng : Option RngState) (item_id : Nat) (top : Nat → Rat) :
    Option ((Nat → Rat) × Option RngState) :=
  if p.crop_size ≠ 0 then
    if d.dataSize = 0 then
      none
    else
      match cropOffsets p.phase p.height p.width p.crop_size rng with
      | none => none
      | some ((h_off, w_off), rng1) =>
        if p.mirror then
          match PrefetchRand rng1 with
          | none => none
          | some (r, s) =>
            if r % 2 ≠ 0 then
              some (cropLoopMirror p mean d h_off w_off item_id top, some s)
            else
              some (cropLoopNormal p mean d h_off w_off item_id top, some s)
        else
          some (cropLoopNormal p mean d h_off w_off item_id top, rng1)
  else
    if d.dataSize ≠ 0 then
      some (byteLoop p mean d item_id top, rng)
    else
      some (floatLoop p mean d item_id top, rng)

/-- Cursor advance for the leveldb / lmdb backends (data_layer.cpp lines
121-141 and 256-269): `Next()` then, when the end is reached, restart
from the first record.  Records of a dataset of `K` records are numbered
`0 … K-1`. -/
def advanceCursor (K i : Nat) : Nat :=
  if i + 1 < K then i + 1 else 0

/-- The item loop of `InternalThreadEntry` for the record-store backends:
processes `n` more items starting at `item_id`, reading record `cursor`
and advancing (with wraparound) after each item.  Returns the final
buffer, RNG, cursor and the list of record indices read. -/
def batchLoop (p : TransformParams) (mean : Nat → Rat) (K : Nat)
    (getDatum : Nat → Datum) :
    Nat → Nat → Option RngState → Nat → (Nat → Rat) → List Nat →
    Option ((Nat → Rat) × Option RngState × Nat × List Nat)
  | 0, _, rng, cursor, top, recs => some (top, rng, cursor, recs.reverse)
  | n + 1, item_id, rng, cursor, top, recs =>
    match processItem p mean (getDatum cursor) rng item_id top with
    | none => none
    | some (top1, rng1) =>
      batchLoop p mean K getDatum n (item_id + 1) rng1 (advanceCursor K cursor) top1
        (cursor :: recs)

/-- `InternalThreadEntry` (one production pass) for the record-store
backends: the up-front fatal check `mirror && crop_size == 0`
(data_layer.cpp lines 32-35) followed by the `batch_size` item loop. -/
def InternalThreadEntry (p : TransformParams) (mean : Nat → Rat)
    (batch_size K : Nat) (getDatum : Nat → Datum) (rng : Option RngState)
    (cursor : Nat) (top : Nat → Rat) :
    Option ((Nat → Rat) × Option RngState × Nat × List Nat) :=
  if p.mirror = true ∧ p.crop_size = 0 then
    none
  else
    batchLoop p mean K getDatum batch_size 0 rng cursor top []

/-- `prefetch_needs_rand` of `CreatePrefetchThread` (data_layer.cpp lines
448-450). -/
def prefetchNeedsRand (phase : Phase) (mirror : Bool) (crop_size : Nat) : Bool :=
  decide (phase = Phase.train) && (mirror || decide (crop_size ≠ 0))

/-- The RNG installed by `CreatePrefetchThread` (data_layer.cpp lines
451-456): a fresh seeded generator when `prefetch_needs_rand`, otherwise
`prefetch_rng_.reset()` leaves no generator. -/
def createPrefetchRng (phase : Phase) (mirror : Bool) (crop_size : Nat)
    (seq : Nat → Nat) : Option RngState :=
  if prefetchNeedsRand phase mirror crop_size then some { seq := seq, pos := 0 } else none

/-- HDF5 backend position: `hdf_current_file_` and `hdf_current_row_`. -/
structure HdfState where
  file : Nat
  row : Nat
deriving DecidableEq, Repr

/-- Modelled from the spec: `hdf5_load_nd_dataset` (in `util/io`, not
under `src/`) reads up to `request` rows starting at row `row` of a
dataset holding `rows` rows, so it returns `min (rows - row) request`
rows; it returns fewer than requested exactly when the file is
exhausted. -/
def hdfReadCount (rows row request : Nat) : Nat :=
  min (rows - row) request

/-- The `while (loaded_so_far < batch_size)` loop of `LoadNextHdfBatch`
(data_layer.cpp lines 381-441).  `files` lists the row counts of the
HDF5 files; segments `(file, start_row, count)` record what was copied
into the prefetch buffer, in order.  `none` models a non-terminating
loop (fuel runs out) or the out-of-bounds `hdf_filenames_[...]` access
when the file list is empty.  Note the source compares `loaded_here`
against `batch_size`, not against the requested `batch_size -
loaded_so_far`. -/
def loadNextHdfLoop (files : List Nat) (batch_size : Nat) :
    Nat → Nat → HdfState → List (Nat × Nat × Nat) →
    Option (List (Nat × Nat × Nat) × HdfState)
  | 0, _, _, _ => none
  | fuel + 1, loaded_so_far, st, segs =>
    if loaded_so_far < batch_size then
      match files[st.file]? with
      | none => none
      | some rows =>
        let loaded_here := hdfReadCount rows st.row (batch_size - loaded_so_far)
        let st1 : HdfState :=
          if loaded_here = batch_size then
            { file := st.file, row := st.row + loaded_here }
          else
            { file := if st.file + 1 = files.length then 0 else st.file + 1, row := 0 }
        if 0 < loaded_here then
          loadNextHdfLoop files batch_size fuel (loaded_so_far + loaded_here) st1
            (segs ++ [(st.file, st.row, loaded_here)])
        else
          loadNextHdfLoop files batch_size fuel loaded_so_far st1 segs
    else
      some (segs, st)

/-- `LoadNextHdfBatch` (data_layer.cpp lines 363-442): fill one batch by
accumulating reads across files, starting with `loaded_so_far = 0`. -/
def LoadNextHdfBatch (files : List Nat) (batch_size fuel : Nat) (st : HdfState) :
    Option (List (Nat × Nat × Nat) × HdfState) :=
  loadNextHdfLoop files batch_size fuel 0 st []

/-- Outcome of the backend-opening step of `SetUp`. -/
inductive SetupOutcome
  | fatal
  | ok (hdfFilenames : List String)
deriving DecidableEq, Repr

/-- Backend opening in `SetUp` (data_layer.cpp lines 181-248): leveldb
`CHECK(status.ok())` and the lmdb `CHECK_EQ(..., MDB_SUCCESS)` chain are
fatal when the source cannot be opened; the HDF5 branch reads the file
list only `if (source_file.is_open())` and otherwise proceeds with an
empty list, with no fatal check. -/
def setupOpen (b : Backend) (sourceReadable : Bool) (listed : List String) :
    SetupOutcome :=
  match b with
  | Backend.leveldb => if sourceReadable then SetupOutcome.ok [] else SetupOutcome.fatal
  | Backend.lmdb => if sourceReadable then SetupOutcome.ok [] else SetupOutcome.fatal
  | Backend.hdf5 => SetupOutcome.ok (if sourceReadable then listed else [])

/-- The `while (skip-- > 0)` loop of the `rand_skip` handling
(data_layer.cpp lines 255-276): each iteration advances the cursor for
the record-store backends and is `LOG(FATAL)` for the HDF5 backend.
Returns the final cursor position, `none` on fatal. -/
def applySkip (b : Backend) : Nat → Nat → Nat → Option Nat
  | 0, _, c => some c
  | n + 1, K, c =>
    match b with
    | Backend.leveldb => applySkip b n K (advanceCursor K c)
    | Backend.lmdb => applySkip b n K (advanceCursor K c)
    | Backend.hdf5 => none

/-- The `rand_skip` step of `SetUp` (data_layer.cpp lines 250-277): when
`rand_skip` is nonzero, draw `skip = caffe_rng_rand() % rand_skip` and
apply that many advances (fatal inside the loop on the HDF5 backend). -/
def setupSkip (b : Backend) (rand_skip rngDraw K c : Nat) : Option Nat :=
  if rand_skip ≠ 0 then
    applySkip b (rngDraw % rand_skip) K c
  else
    some c

/-- The label-dimension checks of `SetUp` (data_layer.cpp lines 167-173):
with one top blob, `CHECK_EQ(label_dim, 1)`; otherwise
`CHECK_GE(label_dim, 1)`.  Returns `output_labels_`, `none` on a failed
CHECK. -/
def setupLabelCheck (numTop : Nat) (label_dim : Int) : Option Bool :=
  if numTop = 1 then
    if label_dim = 1 then some false else none
  else
    if 1 ≤ label_dim then some true else none

/-! Helper lemmas: reading back a buffer built by a fold of point writes. -/

theorem foldl_writeBuf_ne {ι : Type} (f : ι → Nat) (v : ι → Rat) :
    ∀ (l : List ι) (b : Nat → Rat) (j : Nat), (∀ x ∈ l, f x ≠ j) →
      (l.foldl (fun acc x => writeBuf acc (f x) (v x)) b) j = b j := by
  intro l
  induction l with
  | nil => intro b j _; rfl
  | cons a t ih =>
    intro b j h
    simp only [List.foldl_cons]
    rw [ih _ j (fun x hx => h x (List.mem_cons_of_mem a hx))]
    simp only [writeBuf]
    rw [if_neg]
    intro hj
    exact h a (List.mem_cons_self a t) hj.symm

theorem foldl_writeBuf_get {ι : Type} (f : ι → Nat) (v : ι → Rat) :
    ∀ (l : List ι) (b : Nat → Rat) (x : ι), x ∈ l →
      (∀ y ∈ l, f y = f x → y = x) →
      (l.foldl (fun acc y => writeBuf acc (f y) (v y)) b) (f x) = v x := by
  intro l
  induction l with
  | nil => intro b x hx; exact absurd hx (List.not_mem_nil x)
  | cons a t ih =>
    intro b x hx huniq
    simp only [List.foldl_cons]
    by_cases hxt : x ∈ t
    · exact ih _ x hxt (fun y hy => huniq y (List.mem_cons_of_mem a hy))
    · have hxa : x = a := by
        rcases List.mem_cons.mp hx with h | h
        · exact h
        · exact absurd h hxt
      rw [foldl_writeBuf_ne]
      · simp [writeBuf, hxa]
      · intro y hy hfy
        have : y = x := huniq y (List.mem_cons_of_mem a hy) (hxa ▸ hfy)
        exact hxt (this ▸ hy)

theorem mem_cropIters {C K : Nat} {x : Nat × Nat × Nat} :
    x ∈ cropIters C K ↔ x.1 < C ∧ x.2.1 < K ∧ x.2.2 < K := by
  obtain ⟨c, h, w⟩ := x
  simp only [cropIters, List.mem_flatMap, List.mem_map, List.mem_range]
  constructor
  · rintro ⟨c1, hc1, h1, hh1, w1, hw1, heq⟩
    obtain ⟨rfl, rfl, rfl⟩ := Prod.mk.injEq .. ▸ heq
    simp only [Prod.mk.injEq] at heq
    exact ⟨hc1, hh1, hw1⟩
  · rintro ⟨hc, hh, hw⟩
    exact ⟨c, hc, h, hh, w, hw, rfl⟩

theorem mul_add_lt_inj {K A B wa wb : Nat} (hwa : wa < K) (hwb : wb < K)
    (e : A * K + wa = B * K + wb) : A = B ∧ wa = wb := by
  have hK : 0 < K := Nat.lt_of_le_of_lt (Nat.zero_le wa) hwa
  have h1 : wa = wb := by
    have h := congrArg (fun t => t % K) e
    simpa [Nat.mul_add_mod', Nat.mod_eq_of_lt hwa, Nat.mod_eq_of_lt hwb] using h
  subst h1
  have h2 : A * K = B * K := Nat.add_right_cancel e
  exact ⟨Nat.eq_of_mul_eq_mul_right hK h2, rfl⟩

theorem topIndexCrop_inj {C K item c h w c1 h1 w1 : Nat}
    (hh : h < K) (hw : w < K) (hh1 : h1 < K) (hw1 : w1 < K)
    (e : topIndexCrop C K item c h w = topIndexCrop C K item c1 h1 w1) :
    c = c1 ∧ h = h1 ∧ w = w1 := by
  unfold topIndexCrop at e
  obtain ⟨e1, ew⟩ := mul_add_lt_inj hw hw1 e
  obtain ⟨e2, eh⟩ := mul_add_lt_inj hh hh1 e1
  exact ⟨by omega, eh, ew⟩

theorem cropLoopNormal_get (p : TransformParams) (mean : Nat → Rat) (d : Datum)
    (h_off w_off item_id : Nat) (top : Nat → Rat) {c h w : Nat}
    (hc : c < p.channels) (hh : h < p.crop_size) (hw : w < p.crop_size) :
    cropLoopNormal p mean d h_off w_off item_id top
        (topIndexCrop p.channels p.crop_size item_id c h w)
      = (datumElement d (dataIndex p.height p.width h_off w_off c h w)
          - mean (dataIndex p.height p.width h_off w_off c h w)) * p.scale := by
  have := foldl_writeBuf_get
    (f := fun x : Nat × Nat × Nat =>
      topIndexCrop p.channels p.crop_size item_id x.1 x.2.1 x.2.2)
    (v := fun x : Nat × Nat × Nat =>
      (datumElement d (dataIndex p.height p.width h_off w_off x.1 x.2.1 x.2.2)
        - mean (dataIndex p.height p.width h_off w_off x.1 x.2.1 x.2.2)) * p.scale)
    (cropIters p.channels p.crop_size) top (c, h, w)
    (mem_cropIters.mpr ⟨hc, hh, hw⟩)
    (by
      rintro ⟨c1, h1, w1⟩ hy hfy
      have hb := mem_cropIters.mp hy
      dsimp only at hb hfy
      obtain ⟨ec, eh, ew⟩ := topIndexCrop_inj hb.2.1 hb.2.2 hh hw hfy
      subst ec; subst eh; subst ew; rfl)
  exact this

theorem cropLoopMirror_get (p : TransformParams) (mean : Nat → Rat) (d : Datum)
    (h_off w_off item_id : Nat) (top : Nat → Rat) {c h w : Nat}
    (hc : c < p.channels) (hh : h < p.crop_size) (hw : w < p.crop_size) :
    cropLoopMirror p mean d h_off w_off item_id top
        (topIndexCrop p.channels p.crop_size item_id c h w)
      = (datumElement d (dataIndex p.height p.width h_off w_off c h (p.crop_size - 1 - w))
          - mean (dataIndex p.height p.width h_off w_off c h (p.crop_size - 1 - w))) * p.scale := by
  have hw2 : p.crop_size - 1 - w < p.crop_size := by omega
  have hww : p.crop_size - 1 - (p.crop_size - 1 - w) = w := by omega
  have main := foldl_writeBuf_get
    (f := fun x : Nat × Nat × Nat =>
      topIndexCrop p.channels p.crop_size item_id x.1 x.2.1 (p.crop_size - 1 - x.2.2))
    (v := fun x : Nat × Nat × Nat =>
      (datumElement d (dataIndex p.height p.width h_off w_off x.1 x.2.1 x.2.2)
        - mean (dataIndex p.height p.width h_off w_off x.1 x.2.1 x.2.2)) * p.scale)
    (cropIters p.channels p.crop_size) top (c, h, p.crop_size - 1 - w)
    (mem_cropIters.mpr ⟨hc, hh, hw2⟩)
    (by
      rintro ⟨c1, h1, w1⟩ hy hfy
      have hb := mem_cropIters.mp hy
      dsimp only at hb hfy
      have hb2 : p.crop_size - 1 - w1 < p.crop_size := by
        have := hb.2.2
        omega
      rw [hww] at hfy
      obtain ⟨ec, eh, ew⟩ := topIndexCrop_inj hb.2.1 hb2 hh hw hfy
      have ew1 : w1 = p.crop_size - 1 - w := by
        have := hb.2.2
        omega
      subst ec; subst eh; subst ew1; rfl)
  dsimp only at main
  rw [hww] at main
  exact main

theorem byteLoop_get (p : TransformParams) (mean : Nat → Rat) (d : Datum)
    (item_id : Nat) (top : Nat → Rat) {j : Nat} (hj : j < datumSize p) :
    byteLoop p mean d item_id top (item_id * datumSize p + j)
      = (datumElement d j - mean j) * p.scale := by
  have := foldl_writeBuf_get
    (f := fun j : Nat => item_id * datumSize p + j)
    (v := fun j : Nat => (datumElement d j - mean j) * p.scale)
    (List.range (datumSize p)) top j (List.mem_range.mpr hj)
    (by intro y _ hfy; dsimp only at hfy; omega)
  exact this

theorem floatLoop_get (p : TransformParams) (mean : Nat → Rat) (d : Datum)
    (item_id : Nat) (top : Nat → Rat) {j : Nat} (hj : j < datumSize p) :
    floatLoop p mean d item_id top (item_id * datumSize p + j)
      = (d.float_data j - mean j) * p.scale := by
  have := foldl_writeBuf_get
    (f := fun j : Nat => item_id * datumSize p + j)
    (v := fun j : Nat => (d.float_data j - mean j) * p.scale)
    (List.range (datumSize p)) top j (List.mem_range.mpr hj)
    (by intro y _ hfy; dsimp only at hfy; omega)
  exact this

/-! Concrete objects used by witness and counterexample theorems. -/

/-- An all-zero mean image, as built when no mean file is configured. -/
def exMean : Nat → Rat := fun _ => 0

/-- An all-zero initial prefetch buffer. -/
def exBuf : Nat → Rat := fun _ => 0

/-- A concrete RNG output stream. -/
def exSeq : Nat → Nat := fun n => n

/-- A byte-encoded record whose pixel at flat index i has value i. -/
def exDatumByte : Datum :=
  { dataSize := 6, data := fun i => i, float_data := fun _ => 0, label := 0 }

/-- A record family for the cursor scenarios: record r is a single pixel
of value r. -/
def exGetDatum : Nat → Datum :=
  fun r => { dataSize := 1, data := fun _ => r, float_data := fun _ => 0, label := (r : Rat) }

/-- A crop-free single-pixel configuration (train phase). -/
def demoParams : TransformParams :=
  { scale := 1, crop_size := 0, mirror := false, channels := 1, height := 1,
    width := 1, phase := Phase.train }

/-- One production pass over a 5-record store with batch_size 2 and
crop_size 0, projected to (records read, final cursor). -/
def demoBatch (c : Nat) : Option (List Nat × Nat) :=
  (InternalThreadEntry demoParams exMean 2 5 exGetDatum none c exBuf).map
    (fun r => (r.2.2.2, r.2.2.1))

/-- The C4 counterexample configuration: 1 channel, 2×3 sample, crop 1,
mirror on, train phase. -/
def cxParams : TransformParams :=
  { scale := 1, crop_size := 1, mirror := true, channels := 1, height := 2,
    width := 3, phase := Phase.train }

/-- RNG stream for the C4 counterexample run: both offset draws are 0 and
the mirror draw (third call) is odd, so the mirrored branch is taken. -/
def cxSeq : Nat → Nat := fun n => if n = 2 then 1 else 0

/-! Claim theorems. -/

/-- C3: for crop_size = c with 0 < c < H and 0 < c < W, every produced
crop offset pair satisfies h_off ≤ H − c and w_off ≤ W − c (offsets are
naturals, so 0 ≤ h_off and 0 ≤ w_off hold by type); in train phase the
offsets are the two successive pipeline RNG outputs taken mod (H − c)
and mod (W − c), and in eval phase they are exactly ((H − c) / 2,
(W − c) / 2) with integer division. -/
theorem C3_crop_offsets (H W c : Nat) (hc : 0 < c) (hcH : c < H) (hcW : c < W) :
    (∀ s : RngState, cropOffsets Phase.train H W c (some s)
        = some ((s.seq s.pos % (H - c), s.seq (s.pos + 1) % (W - c)),
            some { seq := s.seq, pos := s.pos + 2 })) ∧
    (∀ rng, cropOffsets Phase.test H W c rng
        = some (((H - c) / 2, (W - c) / 2), rng)) ∧
    (∀ phase rng h_off w_off rng1,
        cropOffsets phase H W c rng = some ((h_off, w_off), rng1) →
        h_off ≤ H - c ∧ w_off ≤ W - c) := by
  refine ⟨fun s => rfl, fun rng => rfl, ?_⟩
  intro phase rng h_off w_off rng1 he
  cases phase with
  | train =>
    cases rng with
    | none => simp [cropOffsets, PrefetchRand] at he
    | some s =>
      simp only [cropOffsets, PrefetchRand, Option.some.injEq, Prod.mk.injEq] at he
      obtain ⟨⟨eh, ew⟩, -⟩ := he
      have hH : 0 < H - c := by omega
      have hW : 0 < W - c := by omega
      constructor
      · rw [← eh]
        exact Nat.le_of_lt (Nat.mod_lt _ hH)
      · rw [← ew]
        exact Nat.le_of_lt (Nat.mod_lt _ hW)
  | test =>
    simp only [cropOffsets, Option.some.injEq, Prod.mk.injEq] at he
    obtain ⟨⟨eh, ew⟩, -⟩ := he
    constructor
    · rw [← eh]
      exact Nat.div_le_self _ _
    · rw [← ew]
      exact Nat.div_le_self _ _

/-- Witness for C3: with H = W = 3 and c = 1 in eval phase the offsets
are exactly (1, 1) = ((3−1)/2, (3−1)/2). -/
theorem C3_crop_offsets_witness :
    cropOffsets Phase.test 3 3 1 none = some ((1, 1), none) :=
  (C3_crop_offsets 3 3 1 (by decide) (by decide) (by decide)).2.1 none

/-- C5 (code bug): in eval phase `CreatePrefetchThread` installs no RNG
(prefetch_needs_rand requires the train phase), yet with the mirror
flag enabled the per-item transform still evaluates
`mirror && PrefetchRand() % 2`, so `PrefetchRand`'s
`CHECK(prefetch_rng_)` fails and production aborts — the claim says
eval-phase production succeeds deterministically for every
configuration including mirror-enabled ones. -/
theorem C5_eval_mirror_aborts :
    createPrefetchRng Phase.test true 1 exSeq = none ∧
    processItem
        { scale := 1, crop_size := 1, mirror := true, channels := 1,
          height := 2, width := 2, phase := Phase.test }
        exMean exDatumByte (createPrefetchRng Phase.test true 1 exSeq) 0 exBuf
      = none :=
  ⟨rfl, rfl⟩

/-- C6: for the record-store backends, the cursor of a K-record dataset
(K ≥ 1) starting at record 0 sits at record j after j < K advances and
returns to record 0 after exactly K advances; advancing is total (never
an error), and in the concrete scenario (5 records, batch_size 2,
crop_size 0) the four successive production passes read records
[0,1], [2,3], [4,0], [1,2], wrapping mid-batch without failure. -/
theorem C6_cursor_wraparound :
    (∀ K j : Nat, 0 < K → j < K → (advanceCursor K)^[j] 0 = j) ∧
    (∀ K : Nat, 0 < K → (advanceCursor K)^[K] 0 = 0) ∧
    demoBatch 0 = some ([0, 1], 2) ∧ demoBatch 2 = some ([2, 3], 4) ∧
    demoBatch 4 = some ([4, 0], 1) ∧ demoBatch 1 = some ([1, 2], 3) := by
  have hiter : ∀ K j : Nat, 0 < K → j < K → (advanceCursor K)^[j] 0 = j := by
    intro K j
    induction j with
    | zero => intro _ _; rfl
    | succ n ih =>
      intro hK hj
      rw [Function.iterate_succ_apply', ih hK (by omega)]
      unfold advanceCursor
      rw [if_pos hj]
  refine ⟨hiter, ?_, rfl, rfl, rfl, rfl⟩
  intro K hK
  cases K with
  | zero => omega
  | succ n =>
    rw [Function.iterate_succ_apply', hiter (n + 1) n (by omega) (by omega)]
    unfold advanceCursor
    rw [if_neg (by omega)]

/-- Witness for C6: a 5-record cursor returns to record 0 after exactly
5 advances. -/
theorem C6_cursor_wraparound_witness : (advanceCursor 5)^[5] 0 = 0 :=
  C6_cursor_wraparound.2.1 5 (by decide)

/-- C8: a configuration with mirror enabled and crop_size = 0 hits the
up-front LOG(FATAL) of the production pass launched by SetUp, before any
item of any batch is produced. -/
theorem C8_mirror_without_crop (p : TransformParams) (mean : Nat → Rat)
    (batch_size K : Nat) (getDatum : Nat → Datum) (rng : Option RngState)
    (cursor : Nat) (top : Nat → Rat)
    (hm : p.mirror = true) (hc : p.crop_size = 0) :
    InternalThreadEntry p mean batch_size K getDatum rng cursor top = none := by
  unfold InternalThreadEntry
  rw [if_pos ⟨hm, hc⟩]

/-- Witness for C8: the mirror-with-zero-crop configuration aborts a
concrete production pass. -/
theorem C8_mirror_without_crop_witness :
    InternalThreadEntry
        { scale := 1, crop_size := 0, mirror := true, channels := 1,
          height := 1, width := 1, phase := Phase.train }
        exMean 2 5 exGetDatum none 0 exBuf = none :=
  C8_mirror_without_crop _ exMean 2 5 exGetDatum none 0 exBuf rfl rfl

/-- C10: with exactly one top blob, setup passes its label check only
when label_dim = 1; with two top blobs, only when label_dim ≥ 1 — so a
labelless layer can never silently accept label_dim > 1. -/
theorem C10_label_dim_check :
    (∀ d : Int, (setupLabelCheck 1 d).isSome ↔ d = 1) ∧
    (∀ d : Int, (setupLabelCheck 2 d).isSome ↔ 1 ≤ d) ∧
    (∀ d : Int, 1 < d → setupLabelCheck 1 d = none) := by
  refine ⟨?_, ?_, ?_⟩
  · intro d
    by_cases h : d = 1 <;> simp [setupLabelCheck, h]
  · intro d
    by_cases h : (1 : Int) ≤ d <;> simp [setupLabelCheck, h]
  · intro d hd
    have h : d ≠ 1 := by omega
    simp [setupLabelCheck, h]

/-- Witness for C10: a single-top layer with label_dim = 5 fails its
setup check. -/
theorem C10_label_dim_check_witness : setupLabelCheck 1 5 = none :=
  C10_label_dim_check.2.2 5 (by decide)

/-- C2: every element written by the augmentation step equals
(raw − mean) × scale: without cropping the byte encoding is preferred
(bytes decoded by the uint8 cast into the numeric type) and the
float-vector encoding is used when no byte data is present; with
cropping the value at each output coordinate is the byte decode at the
source index minus the mean at that same source index, times scale; and
with mean ≡ 0 and scale = 1 the output equals the decoded raw byte
exactly. -/
theorem C2_value_rule :
    (∀ (p : TransformParams) (mean : Nat → Rat) (d : Datum) (rng : Option RngState)
        (item_id : Nat) (top : Nat → Rat) (j : Nat),
        p.crop_size = 0 → d.dataSize ≠ 0 → j < datumSize p →
        (processItem p mean d rng item_id top).map
            (fun r => r.1 (item_id * datumSize p + j))
          = some ((datumElement d j - mean j) * p.scale)) ∧
    (∀ (p : TransformParams) (mean : Nat → Rat) (d : Datum) (rng : Option RngState)
        (item_id : Nat) (top : Nat → Rat) (j : Nat),
        p.crop_size = 0 → d.dataSize = 0 → j < datumSize p →
        (processItem p mean d rng item_id top).map
            (fun r => r.1 (item_id * datumSize p + j))
          = some ((d.float_data j - mean j) * p.scale)) ∧
    (∀ (p : TransformParams) (mean : Nat → Rat) (d : Datum)
        (h_off w_off item_id : Nat) (top : Nat → Rat) (c h w : Nat),
        c < p.channels → h < p.crop_size → w < p.crop_size →
        cropLoopNormal p mean d h_off w_off item_id top
            (topIndexCrop p.channels p.crop_size item_id c h w)
          = (datumElement d (dataIndex p.height p.width h_off w_off c h w)
              - mean (dataIndex p.height p.width h_off w_off c h w)) * p.scale) ∧
    (∀ (p : TransformParams) (mean : Nat → Rat) (d : Datum) (rng : Option RngState)
        (item_id : Nat) (top : Nat → Rat) (j : Nat),
        p.crop_size = 0 → (∀ i, mean i = 0) → p.scale = 1 → d.dataSize ≠ 0 →
        j < datumSize p →
        (processItem p mean d rng item_id top).map
            (fun r => r.1 (item_id * datumSize p + j))
          = some (datumElement d j)) := by
  have hbyte : ∀ (p : TransformParams) (mean : Nat → Rat) (d : Datum)
      (rng : Option RngState) (item_id : Nat) (top : Nat → Rat) (j : Nat),
      p.crop_size = 0 → d.dataSize ≠ 0 → j < datumSize p →
      (processItem p mean d rng item_id top).map
          (fun r => r.1 (item_id * datumSize p + j))
        = some ((datumElement d j - mean j) * p.scale) := by
    intro p mean d rng item_id top j hc0 hd hj
    simp only [processItem, hc0, ne_eq, not_true_eq_false, if_false, ite_not, hd,
      if_neg hd, Option.map_some', Option.some.injEq]
    exact byteLoop_get p mean d item_id top hj
  refine ⟨hbyte, ?_, ?_, ?_⟩
  · intro p mean d rng item_id top j hc0 hd hj
    simp only [processItem, hc0, ne_eq, not_true_eq_false, if_false, hd,
      not_false_eq_true, if_pos, Option.map_some', Option.some.injEq]
    exact floatLoop_get p mean d item_id top hj
  · intro p mean d h_off w_off item_id top c h w hc hh hw
    exact cropLoopNormal_get p mean d h_off w_off item_id top hc hh hw
  · intro p mean d rng item_id top j hc0 hmean hscale hd hj
    rw [hbyte p mean d rng item_id top j hc0 hd hj, hmean, hscale]
    norm_num

/-- Witness for C2: the single pixel of a crop-free 1×1×1 byte record of
value 7 comes out as (7 − 0) × 1. -/
theorem C2_value_rule_witness :
    (processItem demoParams exMean
        { dataSize := 1, data := fun _ => 7, float_data := fun _ => 0, label := 0 }
        none 0 exBuf).map (fun r => r.1 (0 * datumSize demoParams + 0))
      = some ((datumElement
          { dataSize := 1, data := fun _ => 7, float_data := fun _ => 0, label := 0 } 0
          - exMean 0) * demoParams.scale) :=
  C2_value_rule.1 demoParams exMean
    { dataSize := 1, data := fun _ => 7, float_data := fun _ => 0, label := 0 }
    none 0 exBuf 0 rfl (by decide) (by decide)

/-- C4 counterexample: the claim reads the mirrored source column as
W_total − 1 − w + w_off with W_total the full sample width, but the code
reverses columns within the crop window (crop_size − 1 − w + w_off).
With a 1×2×3 sample, crop_size 1, offsets 0 and pixel values equal to
their flat index, the mirrored output at (0,0,0) is raw column 0
(value 0), not raw column W − 1 = 2 (value 2). -/
theorem C4_mirror_counterexample :
    (processItem cxParams exMean exDatumByte (some { seq := cxSeq, pos := 0 }) 0 exBuf).map
        (fun r => r.1 (topIndexCrop 1 1 0 0 0 0))
      ≠ some ((datumElement exDatumByte (dataIndex 2 3 0 0 0 0 (3 - 1 - 0))
          - exMean (dataIndex 2 3 0 0 0 0 (3 - 1 - 0))) * cxParams.scale) := by
  have hL : (processItem cxParams exMean exDatumByte
        (some { seq := cxSeq, pos := 0 }) 0 exBuf).map
        (fun r => r.1 (topIndexCrop 1 1 0 0 0 0))
      = some ((datumElement exDatumByte (dataIndex 2 3 0 0 0 0 0)
          - exMean (dataIndex 2 3 0 0 0 0 0)) * cxParams.scale) := rfl
  rw [hL]
  intro h
  rw [Option.some.injEq] at h
  norm_num [datumElement, exMean, cxParams, exDatumByte, dataIndex] at h

/-- C4 amended: when the mirror branch is taken the output at crop
coordinate (c,h,w) is transform(raw[c, h + h_off,
(crop_size − 1 − w) + w_off]) — the crop window written column-reversed,
mean subtracted at the pre-mirror source index — and without mirroring
it is transform(raw[c, h + h_off, w + w_off]), where
transform(x) = (x − mean) × scale at the source index. -/
theorem C4_mirror_amended (p : TransformParams) (mean : Nat → Rat) (d : Datum)
    (h_off w_off item_id : Nat) (top : Nat → Rat) (c h w : Nat)
    (hc : c < p.channels) (hh : h < p.crop_size) (hw : w < p.crop_size) :
    cropLoopMirror p mean d h_off w_off item_id top
        (topIndexCrop p.channels p.crop_size item_id c h w)
      = (datumElement d (dataIndex p.height p.width h_off w_off c h (p.crop_size - 1 - w))
          - mean (dataIndex p.height p.width h_off w_off c h (p.crop_size - 1 - w)))
          * p.scale ∧
    cropLoopNormal p mean d h_off w_off item_id top
        (topIndexCrop p.channels p.crop_size item_id c h w)
      = (datumElement d (dataIndex p.height p.width h_off w_off c h w)
          - mean (dataIndex p.height p.width h_off w_off c h w)) * p.scale :=
  ⟨cropLoopMirror_get p mean d h_off w_off item_id top hc hh hw,
   cropLoopNormal_get p mean d h_off w_off item_id top hc hh hw⟩

/-- Witness for the amended C4 at the counterexample configuration and
coordinate (0,0,0). -/
theorem C4_mirror_amended_witness :
    cropLoopMirror cxParams exMean exDatumByte 0 0 0 exBuf
        (topIndexCrop cxParams.channels cxParams.crop_size 0 0 0 0)
      = (datumElement exDatumByte
            (dataIndex cxParams.height cxParams.width 0 0 0 0 (cxParams.crop_size - 1 - 0))
          - exMean (dataIndex cxParams.height cxParams.width 0 0 0 0 (cxParams.crop_size - 1 - 0)))
          * cxParams.scale ∧
    cropLoopNormal cxParams exMean exDatumByte 0 0 0 exBuf
        (topIndexCrop cxParams.channels cxParams.crop_size 0 0 0 0)
      = (datumElement exDatumByte (dataIndex cxParams.height cxParams.width 0 0 0 0 0)
          - exMean (dataIndex cxParams.height cxParams.width 0 0 0 0 0)) * cxParams.scale :=
  C4_mirror_amended cxParams exMean exDatumByte 0 0 0 exBuf 0 0 0
    (by decide) (by decide) (by decide)

/-- C1 (code bug): LoadNextHdfBatch compares loaded_here to batch_size
instead of to the requested batch_size − loaded_so_far, so on two files
of 3 and 2 rows with batch_size 4 the 1-row read from file 1 that
exactly satisfied its request is treated as file exhaustion: the first
batch is rows (0,0..2) and (1,0), but the state then wraps back to
file 0 row 0 (the claim says file 1 row offset 1), and the second batch
repeats rows (0,0..2) and (1,0) instead of taking file 1 row 1 and then
wrapping. -/
theorem C1_hdf_accumulation_eval :
    LoadNextHdfBatch [3, 2] 4 10 { file := 0, row := 0 }
        = some ([(0, 0, 3), (1, 0, 1)], { file := 0, row := 0 }) ∧
    LoadNextHdfBatch [3, 2] 4 10 { file := 0, row := 0 }
        ≠ some ([(0, 0, 3), (1, 0, 1)], { file := 1, row := 1 }) ∧
    (LoadNextHdfBatch [3, 2] 4 10 { file := 0, row := 0 }).map
        (fun r => LoadNextHdfBatch [3, 2] 4 10 r.2)
      = some (some ([(0, 0, 3), (1, 0, 1)], { file := 0, row := 0 })) :=
  ⟨by decide, by decide, by decide⟩

/-- C7 counterexample: opening the file-set (HDF5) backend with an
unreadable source list is not fatal — the code silently proceeds with an
empty file list. -/
theorem C7_open_counterexample :
    setupOpen Backend.hdf5 false ["train1.h5"] = SetupOutcome.ok [] ∧
    setupOpen Backend.hdf5 false ["train1.h5"] ≠ SetupOutcome.fatal := by
  decide

/-- C7 amended: sorted-store (leveldb) and transactional-store (lmdb)
open failures abort setup fatally; an unreadable or missing file-set
list is silently accepted, leaving an empty file list, and the first
HDF5 batch load then fails on the out-of-bounds access
hdf_filenames_[0] rather than via a checked abort. -/
theorem C7_open_amended :
    (∀ files, setupOpen Backend.leveldb false files = SetupOutcome.fatal) ∧
    (∀ files, setupOpen Backend.lmdb false files = SetupOutcome.fatal) ∧
    (∀ files, setupOpen Backend.hdf5 false files = SetupOutcome.ok []) ∧
    (∀ batch fuel : Nat, ∀ st : HdfState,
        LoadNextHdfBatch [] (batch + 1) fuel st = none) := by
  refine ⟨fun _ => rfl, fun _ => rfl, fun _ => rfl, ?_⟩
  intro batch fuel st
  cases fuel with
  | zero => rfl
  | succ n =>
    have h01 : 0 < batch + 1 := Nat.succ_pos batch
    simp only [LoadNextHdfBatch, loadNextHdfLoop, h01, if_true, List.getElem?_nil]

/-- C9 counterexample: rand_skip = 1 on the HDF5 backend draws
skip = caffe_rng_rand() % 1 = 0, so the skip loop body — and with it
the fatal branch — never runs, contradicting the claim that any nonzero
rand_skip on the file-set backend fails fatally at startup. -/
theorem C9_rand_skip_counterexample :
    setupSkip Backend.hdf5 1 7 5 0 = some 0 ∧
    setupSkip Backend.hdf5 1 7 5 0 ≠ none := by
  decide

/-- C9 amended: with rand_skip nonzero the HDF5 backend fails fatally at
startup exactly when the drawn skip count caffe_rng_rand() % rand_skip
is nonzero (in particular rand_skip = 1 never aborts); on the leveldb
and lmdb backends the startup skip is applied by that many cursor
advances, wrapping at the end of the K-record dataset, before the first
batch. -/
theorem C9_rand_skip_amended :
    (∀ rand_skip rngDraw K c : Nat, 0 < rand_skip →
        (setupSkip Backend.hdf5 rand_skip rngDraw K c = none ↔
          rngDraw % rand_skip ≠ 0)) ∧
    (∀ rand_skip rngDraw K c : Nat, 0 < rand_skip →
        setupSkip Backend.leveldb rand_skip rngDraw K c
          = some ((advanceCursor K)^[rngDraw % rand_skip] c)) ∧
    (∀ rand_skip rngDraw K c : Nat, 0 < rand_skip →
        setupSkip Backend.lmdb rand_skip rngDraw K c
          = some ((advanceCursor K)^[rngDraw % rand_skip] c)) := by
  have hlev : ∀ n K c : Nat,
      applySkip Backend.leveldb n K c = some ((advanceCursor K)^[n] c) := by
    intro n
    induction n with
    | zero => intro K c; rfl
    | succ m ih =>
      intro K c
      rw [show applySkip Backend.leveldb (m + 1) K c
            = applySkip Backend.leveldb m K (advanceCursor K c) from rfl,
          ih, Function.iterate_succ_apply]
  have hmdb : ∀ n K c : Nat,
      applySkip Backend.lmdb n K c = some ((advanceCursor K)^[n] c) := by
    intro n
    induction n with
    | zero => intro K c; rfl
    | succ m ih =>
      intro K c
      rw [show applySkip Backend.lmdb (m + 1) K c
            = applySkip Backend.lmdb m K (advanceCursor K c) from rfl,
          ih, Function.iterate_succ_apply]
  refine ⟨?_, ?_, ?_⟩
  · intro rs r K c hrs
    unfold setupSkip
    rw [if_pos (by omega : rs ≠ 0)]
    cases hm : r % rs with
    | zero => simp [applySkip]
    | succ m => simp [applySkip]
  · intro rs r K c hrs
    unfold setupSkip
    rw [if_pos (by omega : rs ≠ 0)]
    exact hlev _ K c
  · intro rs r K c hrs
    unfold setupSkip
    rw [if_pos (by omega : rs ≠ 0)]
    exact hmdb _ K c

/-- Witness for the amended C9: rand_skip = 2 with draw 3 gives skip 1
and the HDF5 backend aborts. -/
theorem C9_rand_skip_amended_witness : setupSkip Backend.hdf5 2 3 5 0 = none :=
  (C9_rand_skip_amended.1 2 3 5 0 (by decide)).mpr (by decide)

end DataLayer
